import Mathlib

/-!
Shallow embedding of `dataframe_to_autosize_excel.py`.

Cells are modelled by their textual representation (a `String`): the width
computation only ever inspects `str(value)`.  A pandas `DataFrame` is an
ordered sequence of named columns.  Python `dict`s are modelled as
insertion-ordered association lists.  Python exceptions become an explicit
error type; `float('nan')` results of `.max()` over an empty column become
`Option.none`.  Floating-point arithmetic is idealised as exact rational
arithmetic, with Python's banker's rounding (`round`) modelled exactly.
-/

/-- A dataframe without its index: ordered named columns, each an ordered
list of cell renderings. -/
structure DataFrame where
  cols : List (String × List String)
deriving Repr, DecidableEq

/-- The dynamically-typed `alternate_headers` argument of
`maximum_character_widths`: `None`, a `list`, a `dict`, or any other
Python object (e.g. a bool or an int). -/
inductive AltHeaders where
  | noLabels : AltHeaders
  | list (l : List String) : AltHeaders
  | dict (d : List (String × String)) : AltHeaders
  | other : AltHeaders
deriving Repr, DecidableEq

/-- Python exceptions raised by the embedded code. -/
inductive PyError where
  | valueError (msg : String) : PyError
  | typeError (msg : String) : PyError
  | keyError (key : String) : PyError
  | indexError : PyError
deriving Repr, DecidableEq

/-- Python dict assignment `d[k] = v`: an existing key is updated in
place, a new key is appended, preserving insertion order. -/
def dictInsert {α : Type} (d : List (String × α)) (k : String) (v : α) :
    List (String × α) :=
  if d.any (fun p => p.1 == k) then
    d.map (fun p => if p.1 == k then (k, v) else p)
  else
    d ++ [(k, v)]

/-- `{k:v for k,v in zip(ks, vs)}`. -/
def dictOfZip (ks vs : List String) : List (String × String) :=
  (ks.zip vs).foldl (fun d p => dictInsert d p.1 p.2) []

/-- `df[key]` on a single column name: the first column of that name, or a
`KeyError`. -/
def DataFrame.getCol (df : DataFrame) (key : String) :
    Except PyError (List String) :=
  match df.cols.find? (fun c => c.1 == key) with
  | Option.none => .error (.keyError key)
  | some c => .ok c.2

/-- `df[key].astype(str).str.len().max()`: the maximum cell length of the
column, `none` (pandas `nan`) when the column has no rows. -/
def colStrLenMax (df : DataFrame) (key : String) :
    Except PyError (Option Nat) := do
  let cells ← df.getCol key
  return (cells.map String.length).max?

/-- Python `max(a, m)` where `a` is an int and `m` may be `nan`:
comparisons with `nan` are false, so `max` returns its first argument. -/
def pyMaxNat (a : Nat) : Option Nat → Nat
  | Option.none => a
  | some b => max a b

/-- The header-resolution prefix of `maximum_character_widths`
(lines 136–149): builds the `headers` dict or raises. -/
def buildHeaders (df : DataFrame) (consider_headers : Bool)
    (alternate_headers : AltHeaders) :
    Except PyError (List (String × String)) :=
  match alternate_headers with
  | .list l =>
      if l.length ≠ df.cols.length then
        .error (.valueError
          "The number of labels must equal the number of columns in the dataframe")
      else
        .ok (dictOfZip (df.cols.map Prod.fst) l)
  | .dict d =>
      if d.length ≠ df.cols.length then
        .error (.valueError
          "The number of labels must equal the number of columns in the dataframe")
      else
        .ok d
  | .noLabels =>
      if consider_headers then
        .ok (df.cols.map (fun c => (c.1, c.1)))
      else
        .error (.typeError "Alternative headers must be a list or dictionary")
  | .other =>
      .error (.typeError "Alternative headers must be a list or dictionary")

/-- One iteration of the width loop (lines 151–155): the value stored in
`widths[key]`.  `df[key]` is evaluated in both branches, so a missing key
raises `KeyError` regardless of `consider_headers`. -/
def widthsEntry (df : DataFrame) (consider_headers : Bool)
    (key value : String) : Except PyError (Option Nat) := do
  let m ← colStrLenMax df key
  if consider_headers then
    return some (pyMaxNat value.length m)
  else
    return m

/-- The `for key,value in headers.items()` loop, accumulating the `widths`
dict. -/
def widthsLoop (df : DataFrame) (consider_headers : Bool) :
    List (String × String) → List (String × Option Nat) →
    Except PyError (List (String × Option Nat))
  | [], acc => .ok acc
  | (key, value) :: rest, acc => do
      let w ← widthsEntry df consider_headers key value
      widthsLoop df consider_headers rest (dictInsert acc key w)

/-- `maximum_character_widths(df, consider_headers, alternate_headers)`
(lines 117–157). -/
def maximum_character_widths (df : DataFrame)
    (consider_headers : Bool := true)
    (alternate_headers : AltHeaders := .noLabels) :
    Except PyError (List (String × Option Nat)) := do
  let headers ← buildHeaders df consider_headers alternate_headers
  widthsLoop df consider_headers headers []

/-- Python's `round` to the nearest integer, ties to even. -/
def roundHalfEven (x : ℚ) : ℤ :=
  if x - ⌊x⌋ < 1/2 then ⌊x⌋
  else if x - ⌊x⌋ > 1/2 then ⌊x⌋ + 1
  else if Even ⌊x⌋ then ⌊x⌋ else ⌊x⌋ + 1

/-- Python's `round(x, 2)`. -/
def round2 (x : ℚ) : ℚ := (roundHalfEven (100 * x) : ℚ) / 100

/-- `excel_column_width(charwidth, fontsize)` (lines 159–172), idealised
over exact rationals. -/
def excel_column_width (charwidth : ℚ) (fontsize : ℚ := 11) : ℚ :=
  charwidth * round2 (118775 / 1000000 * fontsize)

/-! ## The orchestration layer `to_autosize_excel` (lines 9–115)

Only the parts that the writer observes or that can raise are modelled:
the construction of `ExcelWriter` and the `writer.book` / `writer.sheets`
plumbing are glue with no observable effect here.  `df.to_excel(writer,
**kwargs)` is modelled as a single `writeData` event on the writer. -/

/-- A dataframe together with its index: a list of index levels (each an
optionally-named ordered column) plus the ordinary columns. -/
structure IndexedFrame where
  indexLevels : List (Option String × List String)
  frame : DataFrame
deriving Repr, DecidableEq

/-- The name `reset_index` gives to index level `i` of `n`: the level's
own name, or `index` for a single unnamed level, `level_i` otherwise. -/
def resetIndexName (n i : Nat) : Option String → String
  | some nm => nm
  | Option.none => if n == 1 then "index" else "level_" ++ toString i

/-- `data.reset_index()`: index levels become leading ordinary columns.
(Name collisions between index levels and columns are not modelled.) -/
def IndexedFrame.reset_index (x : IndexedFrame) : DataFrame :=
  ⟨(x.indexLevels.enum.map
      (fun p => (resetIndexName x.indexLevels.length p.1 p.2.1, p.2.2)))
    ++ x.frame.cols⟩

/-- `data.index.names`. -/
def IndexedFrame.indexNames (x : IndexedFrame) : List (Option String) :=
  x.indexLevels.map Prod.fst

/-- The dynamically-typed `columns` argument: `None`, a sequence of column
names, or (though outside the declared type) a bool — the code at line 76
explicitly tests `isinstance(columns, bool)`. -/
inductive ColumnsArg where
  | noCols : ColumnsArg
  | list (cs : List String) : ColumnsArg
  | bool (b : Bool) : ColumnsArg
deriving Repr, DecidableEq

/-- Python truthiness of the `columns` argument (`if kwargs["columns"]:`):
`None`, `[]` and `False` are falsy. -/
def ColumnsArg.truthy : ColumnsArg → Bool
  | .noCols => false
  | .list cs => !cs.isEmpty
  | .bool b => b

/-- `list(columns)`: raises `TypeError` unless `columns` is iterable. -/
def ColumnsArg.toPyList : ColumnsArg → Except PyError (List String)
  | .noCols => .error (.typeError "NoneType object is not iterable")
  | .list cs => .ok cs
  | .bool _ => .error (.typeError "bool object is not iterable")

/-- The `header` argument of `to_autosize_excel`: a bool or a list of
labels.  It is forwarded to `df.to_excel` as part of `kwargs` but — this
is the point of several claims — never consulted by the sizing logic. -/
inductive HeaderArg where
  | bool (b : Bool) : HeaderArg
  | list (l : List String) : HeaderArg
deriving Repr, DecidableEq

/-- The `index_label` argument: `None`, a string, or a sequence. -/
inductive IndexLabelArg where
  | noLabel : IndexLabelArg
  | str (s : String) : IndexLabelArg
  | seq (l : List String) : IndexLabelArg
deriving Repr, DecidableEq

/-- Python truthiness of `index_label` (`if index and index_label:`):
`None`, `""` and `[]` are falsy. -/
def IndexLabelArg.truthy : IndexLabelArg → Bool
  | .noLabel => false
  | .str s => !(s == "")
  | .seq l => !l.isEmpty

/-- Operations performed on the Excel writer, in order. -/
inductive WriterEvent where
  | writeData : WriterEvent
  | setColumn (col : Nat) (width : Option ℚ) : WriterEvent
  | writeHeaderRow (row col : Nat) (labels : List String) : WriterEvent
deriving Repr, DecidableEq

/-- `df[list(columns)]` on each name, preserving the requested order. -/
def DataFrame.select (df : DataFrame) (cs : List String) :
    Except PyError DataFrame := do
  let cols ← cs.mapM (fun c => do
    let v ← df.getCol c
    return (c, v))
  return ⟨cols⟩

/-- Lines 65–68: `data = df[list(columns)] if columns else df`.
Selection keeps the index. -/
def selectData (df : IndexedFrame) : ColumnsArg → Except PyError IndexedFrame
  | .noCols => .ok df
  | .list cs =>
      if cs.isEmpty then .ok df
      else do
        let f ← df.frame.select cs
        return ⟨df.indexLevels, f⟩
  | .bool b =>
      if b then .error (.typeError "bool object is not iterable") else .ok df

/-- Lines 76–93: resolution of the label list used for sizing.  Note the
source tests `isinstance(columns, bool)` — not the `header` argument — to
decide whether to use the dataframe's existing labels. -/
def buildLabels (data : IndexedFrame) (columns : ColumnsArg) (index : Bool)
    (index_label : IndexLabelArg) : Except PyError (List String) :=
  match columns with
  | .bool _ =>
      if index then .ok (data.reset_index.cols.map Prod.fst)
      else .ok (data.frame.cols.map Prod.fst)
  | _ =>
      if index && index_label.truthy then
        match index_label with
        | .str s => do
            let cs ← columns.toPyList
            return s :: cs
        | .seq l => do
            let cs ← columns.toPyList
            return l ++ cs
        | .noLabel => .error (.typeError "unreachable: noLabel is falsy")
      else if index then do
        let cs ← columns.toPyList
        return (data.indexNames.map (fun nm => nm.getD "")) ++ cs
      else
        columns.toPyList

/-- `widths[column_name]`: Python dict lookup, `KeyError` when absent. -/
def dictGet (d : List (String × Option Nat)) (k : String) :
    Except PyError (Option Nat) :=
  match d.find? (fun p => p.1 == k) with
  | Option.none => .error (.keyError k)
  | some p => .ok p.2

/-- Lines 101–107: `for column in range(startcol, startcol+len(labels))`,
looking up the column name positionally and emitting one `set_column` per
iteration; events already emitted survive a failure. -/
def sizeColumns (names : List String) (widths : List (String × Option Nat)) :
    Nat → Nat → List WriterEvent × Except PyError Unit
  | _, 0 => ([], .ok ())
  | col, Nat.succ k =>
      match names[col]? with
      | Option.none => ([], .error .indexError)
      | some name =>
          match dictGet widths name with
          | .error e => ([], .error e)
          | .ok w =>
              let ev := WriterEvent.setColumn col
                (w.map (fun n => excel_column_width (n : ℚ)))
              let (rest, out) := sizeColumns names widths (col + 1) k
              (ev :: rest, out)

/-- `to_autosize_excel(df, outfile, consider_headers, ..., columns,
header, index, index_label, startrow, startcol, ...)` (lines 9–115),
returning the ordered writer operations and the outcome.  Path handling,
the writer construction and `freeze_panes`/format forwarding have no
observable effect on sizing and are omitted. -/
def to_autosize_excel (df : IndexedFrame) (consider_headers : Bool := true)
    (columns : ColumnsArg := .noCols) (header : HeaderArg := .bool true)
    (index : Bool := true) (index_label : IndexLabelArg := .noLabel)
    (startrow : Nat := 0) (startcol : Nat := 0) :
    List WriterEvent × Except PyError Unit :=
  match selectData df columns with
  | .error e => ([], .error e)
  | .ok data =>
      -- `df.to_excel(writer, **kwargs)` runs first, inside `with writer:`
      let written : List WriterEvent := [.writeData]
      match buildLabels data columns index index_label with
      | .error e => (written, .error e)
      | .ok labels =>
          let target := if index then data.reset_index else data.frame
          match maximum_character_widths target consider_headers
              (.list labels) with
          | .error e => (written, .error e)
          | .ok widths =>
              let (evs, out) :=
                sizeColumns (target.cols.map Prod.fst) widths startcol
                  labels.length
              match out with
              | .error e => (written ++ evs, .error e)
              | .ok _ =>
                  if columns.truthy && !consider_headers then
                    (written ++ evs
                      ++ [.writeHeaderRow startrow startcol labels], .ok ())
                  else
                    (written ++ evs, .ok ())

/-! ## Spec-side helper definitions -/

/-- The value `maximum_character_widths` stores for a header entry
`(key, value)`: the per-column computation of lines 151–155 as a pure
function of the dataframe (meaningful when `key` names a column). -/
def widthVal (df : DataFrame) (ch : Bool) (key value : String) : Option Nat :=
  match df.cols.find? (fun c => c.1 == key) with
  | Option.none => Option.none
  | some c =>
      if ch then some (pyMaxNat value.length ((c.2.map String.length).max?))
      else (c.2.map String.length).max?

/-- Supplied labels align with the dataframe: a sequence of matching
length, or a mapping whose keys are exactly the column names (in any
order). -/
def alignedLabels (df : DataFrame) : AltHeaders → Prop
  | .noLabels => False
  | .list l => l.length = df.cols.length
  | .dict d => (d.map Prod.fst).Perm (df.cols.map Prod.fst)
  | .other => False

/-! ## Library-style lemmas about the embedded dict operations -/

theorem dictInsert_of_not_mem {α : Type} {d : List (String × α)} {k : String}
    (v : α) (h : ∀ p ∈ d, p.1 ≠ k) : dictInsert d k v = d ++ [(k, v)] := by
  have hany : d.any (fun p => p.1 == k) = false := by
    rw [List.any_eq_false]
    intro p hp
    simp only [beq_iff_eq]
    exact h p hp
  simp [dictInsert, hany]

theorem foldl_dictInsert {α : Type} (ps : List (String × α)) :
    ∀ acc : List (String × α),
    (ps.map Prod.fst).Nodup →
    (∀ p ∈ ps, ∀ q ∈ acc, q.1 ≠ p.1) →
    ps.foldl (fun d p => dictInsert d p.1 p.2) acc = acc ++ ps := by
  induction ps with
  | nil => intro acc _ _; simp
  | cons p ps ih =>
      intro acc hnd hdisj
      rw [List.map_cons, List.nodup_cons] at hnd
      have h1 : dictInsert acc p.1 p.2 = acc ++ [(p.1, p.2)] :=
        dictInsert_of_not_mem _ (fun q hq => hdisj p (List.mem_cons_self _ _) q hq)
      have hdisj' : ∀ r ∈ ps, ∀ q ∈ acc ++ [(p.1, p.2)], q.1 ≠ r.1 := by
        intro r hr q hq
        rcases List.mem_append.mp hq with hq | hq
        · exact hdisj r (List.mem_cons_of_mem _ hr) q hq
        · rw [List.mem_singleton.mp hq]
          intro hcontra
          apply hnd.1
          rw [hcontra]
          exact List.mem_map_of_mem Prod.fst hr
      calc (p :: ps).foldl (fun d q => dictInsert d q.1 q.2) acc
          = ps.foldl (fun d q => dictInsert d q.1 q.2) (dictInsert acc p.1 p.2) := rfl
        _ = ps.foldl (fun d q => dictInsert d q.1 q.2) (acc ++ [(p.1, p.2)]) := by
            rw [h1]
        _ = (acc ++ [(p.1, p.2)]) ++ ps := ih _ hnd.2 hdisj'
        _ = acc ++ p :: ps := by simp

theorem dictOfZip_eq_zip (ks vs : List String) (hnd : ks.Nodup)
    (hlen : ks.length = vs.length) : dictOfZip ks vs = ks.zip vs := by
  have hmf : (ks.zip vs).map Prod.fst = ks :=
    List.map_fst_zip ks vs (le_of_eq hlen)
  have := foldl_dictInsert (ks.zip vs) []
    (by rw [hmf]; exact hnd)
    (by intro p _ q hq; cases hq)
  simpa [dictOfZip] using this

theorem find?_of_nodup {α : Type} (l : List (String × α))
    (hnd : (l.map Prod.fst).Nodup) {c : String × α} (hc : c ∈ l) :
    l.find? (fun x => x.1 == c.1) = some c := by
  induction l with
  | nil => cases hc
  | cons d l ih =>
      rw [List.map_cons, List.nodup_cons] at hnd
      rcases List.mem_cons.mp hc with rfl | hc'
      · simp [List.find?_cons]
      · have hne : (d.1 == c.1) = false := by
          simp only [beq_eq_false_iff_ne]
          intro h
          apply hnd.1
          rw [h]
          exact List.mem_map_of_mem Prod.fst hc'
        rw [List.find?_cons, hne]
        exact ih hnd.2 hc'

theorem find?_assoc_map {β : Type} (g : String → String → β)
    (d : List (String × String)) (k : String) (hk : k ∈ d.map Prod.fst) :
    ∃ v, (d.map (fun p => (p.1, g p.1 p.2))).find? (fun p => p.1 == k)
      = some (k, g k v) := by
  induction d with
  | nil => cases hk
  | cons p d ih =>
      by_cases hp : p.1 = k
      · exact ⟨p.2, by simp [List.find?_cons, hp]⟩
      · have hk' : k ∈ d.map Prod.fst := by
          rcases List.mem_cons.mp hk with h | h
          · exact absurd h.symm hp
          · exact h
        obtain ⟨v, hv⟩ := ih hk'
        refine ⟨v, ?_⟩
        rw [List.map_cons, List.find?_cons]
        have : ((p.1, g p.1 p.2).1 == k) = false := by
          simp only [beq_eq_false_iff_ne]
          exact hp
        rw [this]
        exact hv

/-! ## Behaviour of the width loop on well-formed headers -/

theorem widthsEntry_eq_ok (df : DataFrame) (ch : Bool) (key value : String)
    {c : String × List String}
    (hfind : df.cols.find? (fun x => x.1 == key) = some c) :
    widthsEntry df ch key value = .ok (widthVal df ch key value) := by
  simp only [widthsEntry, colStrLenMax, DataFrame.getCol, widthVal, hfind]
  cases ch <;> rfl

theorem widthsLoop_ok (df : DataFrame) (ch : Bool) :
    ∀ (hs : List (String × String)) (acc : List (String × Option Nat)),
    (∀ p ∈ hs, p.1 ∈ df.cols.map Prod.fst) →
    (hs.map Prod.fst).Nodup →
    (∀ p ∈ hs, ∀ q ∈ acc, q.1 ≠ p.1) →
    widthsLoop df ch hs acc
      = .ok (acc ++ hs.map (fun p => (p.1, widthVal df ch p.1 p.2))) := by
  intro hs
  induction hs with
  | nil => intro acc _ _ _; simp [widthsLoop]
  | cons p hs ih =>
      intro acc hsub hnd hdisj
      rw [List.map_cons, List.nodup_cons] at hnd
      obtain ⟨c, hc, hbeq⟩ :
          ∃ x, x ∈ df.cols ∧ (fun x => x.1 == p.1) x = true := by
        obtain ⟨c, hc, hceq⟩ := List.mem_map.mp (hsub p (List.mem_cons_self _ _))
        exact ⟨c, hc, by simp [hceq]⟩
      have hfind : (df.cols.find? (fun x => x.1 == p.1)).isSome :=
        List.find?_isSome.mpr ⟨c, hc, hbeq⟩
      obtain ⟨c₀, hc₀⟩ := Option.isSome_iff_exists.mp hfind
      have hentry := widthsEntry_eq_ok df ch p.1 p.2 hc₀
      have hins : dictInsert acc p.1 (widthVal df ch p.1 p.2)
          = acc ++ [(p.1, widthVal df ch p.1 p.2)] :=
        dictInsert_of_not_mem _
          (fun q hq => hdisj p (List.mem_cons_self _ _) q hq)
      have hdisj' : ∀ r ∈ hs,
          ∀ q ∈ acc ++ [(p.1, widthVal df ch p.1 p.2)], q.1 ≠ r.1 := by
        intro r hr q hq
        rcases List.mem_append.mp hq with hq | hq
        · exact hdisj r (List.mem_cons_of_mem _ hr) q hq
        · rw [List.mem_singleton.mp hq]
          intro hcontra
          apply hnd.1
          rw [hcontra]
          exact List.mem_map_of_mem Prod.fst hr
      have hsub' : ∀ r ∈ hs, r.1 ∈ df.cols.map Prod.fst :=
        fun r hr => hsub r (List.mem_cons_of_mem _ hr)
      calc widthsLoop df ch (p :: hs) acc
          = widthsLoop df ch hs (dictInsert acc p.1 (widthVal df ch p.1 p.2)) := by
            obtain ⟨k, v⟩ := p
            simp only [widthsLoop, hentry, Except.bind]
            rfl
        _ = widthsLoop df ch hs (acc ++ [(p.1, widthVal df ch p.1 p.2)]) := by
            rw [hins]
        _ = .ok ((acc ++ [(p.1, widthVal df ch p.1 p.2)])
              ++ hs.map (fun r => (r.1, widthVal df ch r.1 r.2))) :=
            ih _ hsub' hnd.2 hdisj'
        _ = .ok (acc ++ (p :: hs).map (fun r => (r.1, widthVal df ch r.1 r.2))) := by
            simp

theorem mcw_aligned (df : DataFrame) (ch : Bool) (ah : AltHeaders)
    (hnd : (df.cols.map Prod.fst).Nodup) (hal : alignedLabels df ah) :
    ∃ hs : List (String × String),
      buildHeaders df ch ah = .ok hs ∧
      (hs.map Prod.fst).Perm (df.cols.map Prod.fst) ∧
      (∀ l, ah = .list l → hs.map Prod.fst = df.cols.map Prod.fst) ∧
      (∀ d, ah = .dict d → hs = d) ∧
      maximum_character_widths df ch ah
        = .ok (hs.map (fun p => (p.1, widthVal df ch p.1 p.2))) := by
  have hloop : ∀ hs : List (String × String),
      buildHeaders df ch ah = .ok hs →
      (∀ p ∈ hs, p.1 ∈ df.cols.map Prod.fst) →
      (hs.map Prod.fst).Nodup →
      maximum_character_widths df ch ah
        = .ok (hs.map (fun p => (p.1, widthVal df ch p.1 p.2))) := by
    intro hs hb hsub hnd'
    have := widthsLoop_ok df ch hs [] hsub hnd' (by intro p _ q hq; cases hq)
    simp only [maximum_character_widths, hb, Except.bind]
    simpa using this
  cases ah with
  | noLabels => cases hal
  | other => cases hal
  | list l =>
      have hlen : l.length = df.cols.length := hal
      have hnames : (df.cols.map Prod.fst).length = l.length := by
        rw [List.length_map, hlen]
      have hb : buildHeaders df ch (.list l)
          = .ok ((df.cols.map Prod.fst).zip l) := by
        simp only [buildHeaders, hlen]
        rw [if_neg (by simp), dictOfZip_eq_zip _ _ hnd hnames]
      have hmf : ((df.cols.map Prod.fst).zip l).map Prod.fst
          = df.cols.map Prod.fst :=
        List.map_fst_zip _ _ (le_of_eq hnames)
      refine ⟨_, hb, ?_, ?_, ?_, ?_⟩
      · rw [hmf]
      · intro l' hl'
        cases hl'
        exact hmf
      · intro d' hd'
        cases hd'
      · exact hloop _ hb (fun p hp => hmf ▸ List.mem_map_of_mem Prod.fst hp)
          (by rw [hmf]; exact hnd)
  | dict d =>
      have hperm : (d.map Prod.fst).Perm (df.cols.map Prod.fst) := hal
      have hlen : d.length = df.cols.length := by
        have := hperm.length_eq
        simpa using this
      have hb : buildHeaders df ch (.dict d) = .ok d := by
        simp only [buildHeaders]
        rw [if_neg (by simp [hlen])]
      refine ⟨d, hb, hperm, ?_, ?_, ?_⟩
      · intro l' hl'
        cases hl'
      · intro d' hd'
        cases hd'
        rfl
      · exact hloop d hb
          (fun p hp => hperm.mem_iff.mp (List.mem_map_of_mem Prod.fst hp))
          (hperm.nodup_iff.mpr hnd)

theorem mcw_noLabels (df : DataFrame)
    (hnd : (df.cols.map Prod.fst).Nodup) :
    maximum_character_widths df true .noLabels
      = .ok (df.cols.map (fun c => (c.1, widthVal df true c.1 c.1))) := by
  have hb : buildHeaders df true .noLabels
      = .ok (df.cols.map (fun c => (c.1, c.1))) := rfl
  have hmf : ((df.cols.map (fun c => (c.1, c.1))).map Prod.fst)
      = df.cols.map Prod.fst := by
    simp
  have := widthsLoop_ok df true (df.cols.map (fun c => (c.1, c.1))) []
    (fun p hp => hmf ▸ List.mem_map_of_mem Prod.fst hp)
    (by rw [hmf]; exact hnd)
    (by intro p _ q hq; cases hq)
  simp only [maximum_character_widths, hb, Except.bind]
  simpa [List.map_map, Function.comp] using this

theorem widthVal_of_mem (df : DataFrame)
    (hnd : (df.cols.map Prod.fst).Nodup)
    {c : String × List String} (hc : c ∈ df.cols) (ch : Bool) (v : String) :
    widthVal df ch c.1 v =
      if ch then some (pyMaxNat v.length ((c.2.map String.length).max?))
      else (c.2.map String.length).max? := by
  unfold widthVal
  rw [find?_of_nodup df.cols hnd hc]

theorem widthVal_none_iff (df : DataFrame)
    (hnd : (df.cols.map Prod.fst).Nodup)
    {c : String × List String} (hc : c ∈ df.cols) (ch : Bool) (v : String) :
    widthVal df ch c.1 v = Option.none ↔ (ch = false ∧ c.2 = []) := by
  rw [widthVal_of_mem df hnd hc]
  cases ch <;> simp

/-! ## Properties of banker's rounding and the width converter -/

theorem le_roundHalfEven (x : ℚ) : ⌊x⌋ ≤ roundHalfEven x := by
  unfold roundHalfEven
  split_ifs <;> omega

theorem roundHalfEven_le (x : ℚ) : roundHalfEven x ≤ ⌊x⌋ + 1 := by
  unfold roundHalfEven
  split_ifs <;> omega

theorem roundHalfEven_nonneg {x : ℚ} (hx : 0 ≤ x) : 0 ≤ roundHalfEven x := by
  have hf : (0 : ℤ) ≤ ⌊x⌋ := Int.floor_nonneg.mpr hx
  unfold roundHalfEven
  split_ifs <;> omega

theorem roundHalfEven_mono {x y : ℚ} (h : x ≤ y) :
    roundHalfEven x ≤ roundHalfEven y := by
  rcases lt_or_eq_of_le (Int.floor_le_floor h) with hf | hf
  · calc roundHalfEven x ≤ ⌊x⌋ + 1 := roundHalfEven_le x
      _ ≤ ⌊y⌋ := by omega
      _ ≤ roundHalfEven y := le_roundHalfEven y
  · unfold roundHalfEven
    rw [hf]
    split_ifs <;> first | omega | (exfalso; linarith)

theorem round2_nonneg {x : ℚ} (hx : 0 ≤ x) : 0 ≤ round2 x := by
  have h0 : (0 : ℤ) ≤ roundHalfEven (100 * x) :=
    roundHalfEven_nonneg (by linarith)
  have h1 : (0 : ℚ) ≤ (roundHalfEven (100 * x) : ℚ) := by exact_mod_cast h0
  unfold round2
  positivity

theorem round2_mono {x y : ℚ} (h : x ≤ y) : round2 x ≤ round2 y := by
  have h0 : roundHalfEven (100 * x) ≤ roundHalfEven (100 * y) :=
    roundHalfEven_mono (by linarith)
  have h1 : (roundHalfEven (100 * x) : ℚ) ≤ (roundHalfEven (100 * y) : ℚ) := by
    exact_mod_cast h0
  unfold round2
  linarith

/-! ## Claim theorems -/

/-- C1: for every dataset whose columns all have at least one row, with
header labels supplied (a sequence of matching length or a mapping keyed
by the column names) and `consider_headers = false`,
`maximum_character_widths` succeeds and maps every column to the maximum
character length of its cells' textual representations. -/
theorem C1_widths_are_cell_maxima (df : DataFrame) (ah : AltHeaders)
    (hnd : (df.cols.map Prod.fst).Nodup)
    (hal : alignedLabels df ah)
    (hne : ∀ c ∈ df.cols, c.2 ≠ []) :
    ∃ w, maximum_character_widths df false ah = .ok w ∧
      ∀ c ∈ df.cols, ∃ m : Nat,
        w.find? (fun p => p.1 == c.1) = some (c.1, some m) ∧
        m ∈ c.2.map String.length ∧
        ∀ s ∈ c.2, s.length ≤ m := by
  obtain ⟨hs, _, hperm, _, _, hmcw⟩ := mcw_aligned df false ah hnd hal
  refine ⟨_, hmcw, ?_⟩
  intro c hc
  have hkey : c.1 ∈ hs.map Prod.fst :=
    hperm.mem_iff.mpr (List.mem_map_of_mem _ hc)
  obtain ⟨v, hv⟩ :=
    find?_assoc_map (fun k v => widthVal df false k v) hs c.1 hkey
  have hwv : widthVal df false c.1 v = (c.2.map String.length).max? := by
    rw [widthVal_of_mem df hnd hc]
    rfl
  have hne' : c.2.map String.length ≠ [] := by
    simp [hne c hc]
  obtain ⟨m, hm⟩ : ∃ m, (c.2.map String.length).max? = some m := by
    rcases h : (c.2.map String.length).max? with _ | m
    · exact absurd (List.max?_eq_none_iff.mp h) hne'
    · exact ⟨m, rfl⟩
  refine ⟨m, ?_, ?_, ?_⟩
  · rw [hv, hwv, hm]
  · exact (List.max?_eq_some_iff'.mp hm).1
  · intro s hs'
    exact (List.max?_eq_some_iff'.mp hm).2 _ (List.mem_map_of_mem _ hs')

/-- Witness for C1 at a concrete dataset and label sequence. -/
theorem C1_witness :
    ∃ w, maximum_character_widths ⟨[("Name", ["Al", "Bartholomew"])]⟩ false
        (.list ["H"]) = .ok w ∧
      ∀ c ∈ (⟨[("Name", ["Al", "Bartholomew"])]⟩ : DataFrame).cols,
        ∃ m : Nat,
          w.find? (fun p => p.1 == c.1) = some (c.1, some m) ∧
          m ∈ c.2.map String.length ∧
          ∀ s ∈ c.2, s.length ≤ m :=
  C1_widths_are_cell_maxima ⟨[("Name", ["Al", "Bartholomew"])]⟩ (.list ["H"])
    (by decide) (by exact rfl) (by decide)

/-- C2: a label sequence or mapping whose size differs from the column
count always makes `maximum_character_widths` raise the `ValueError`
(`LabelCountMismatch`), whatever the labels and `consider_headers`. -/
theorem C2_label_count_mismatch (df : DataFrame) (ch : Bool) :
    (∀ l : List String, l.length ≠ df.cols.length →
      maximum_character_widths df ch (.list l) = .error (.valueError
        "The number of labels must equal the number of columns in the dataframe")) ∧
    (∀ d : List (String × String), d.length ≠ df.cols.length →
      maximum_character_widths df ch (.dict d) = .error (.valueError
        "The number of labels must equal the number of columns in the dataframe")) := by
  constructor <;>
    · intro x hx
      simp only [maximum_character_widths, buildHeaders]
      rw [if_pos hx]
      rfl

/-- Witness for C2: one column too few, as sequence and as mapping. -/
theorem C2_witness :
    maximum_character_widths ⟨[("A", ["x"]), ("B", ["y"])]⟩ true
        (.list ["Alpha"]) = .error (.valueError
        "The number of labels must equal the number of columns in the dataframe") ∧
    maximum_character_widths ⟨[("A", ["x"]), ("B", ["y"])]⟩ false
        (.dict [("A", "a")]) = .error (.valueError
        "The number of labels must equal the number of columns in the dataframe") :=
  ⟨(C2_label_count_mismatch ⟨[("A", ["x"]), ("B", ["y"])]⟩ true).1
      ["Alpha"] (by decide),
   (C2_label_count_mismatch ⟨[("A", ["x"]), ("B", ["y"])]⟩ false).2
      [("A", "a")] (by decide)⟩

/-- C3 (code bug): for every dataset, calling `maximum_character_widths`
with `alternate_headers` absent (its documented default `None`) and
`consider_headers = false` raises
`TypeError("Alternative headers must be a list or dictionary")` instead
of succeeding with header text excluded: the `None` case is only handled
when `consider_headers` is true, so the documented default falls into the
invalid-shape branch. -/
theorem C3_absent_labels_without_headers_raises (df : DataFrame) :
    maximum_character_widths df false .noLabels
      = .error (.typeError "Alternative headers must be a list or dictionary") :=
  rfl

/-- C4 (code bug): with labels supplied and `consider_headers = false`
the label length is not included in the maximum, although the docstring
says supplying labels `is equivalent to consider_headers = True`: column
`A` with one cell `x` and label `Wide` gets width 1, less than the label
length 4. -/
theorem C4_supplied_labels_not_counted :
    maximum_character_widths ⟨[("A", ["x"])]⟩ false (.list ["Wide"])
      = .ok [("A", some 1)] ∧ 1 < "Wide".length := by
  constructor
  · rfl
  · decide

/-- C5 counterexample: a call whose width computation fails with the
`LabelCountMismatch` `ValueError`, yet the dataframe has already been
written to the writer (`writeData` precedes the error), refuting
"nothing is written to the output writer before the width-computation
error". -/
theorem C5_counterexample :
    to_autosize_excel ⟨[(Option.none, ["i"])], ⟨[("A", ["x"])]⟩⟩ true
        (.list []) (.bool true) true .noLabel 0 0
      = ([.writeData], .error (.valueError
          "The number of labels must equal the number of columns in the dataframe"))
      ∧ WriterEvent.writeData ∈
        (to_autosize_excel ⟨[(Option.none, ["i"])], ⟨[("A", ["x"])]⟩⟩ true
          (.list []) (.bool true) true .noLabel 0 0).1 := by
  constructor
  · rfl
  · rw [show (to_autosize_excel ⟨[(Option.none, ["i"])], ⟨[("A", ["x"])]⟩⟩ true
        (.list []) (.bool true) true .noLabel 0 0).1 = [.writeData] from rfl]
    exact List.mem_singleton.mpr rfl

/-- C5 amended: when width computation fails, the error propagates and no
column is sized and no header row is restyled — but the dataframe content
has already been emitted: the `to_excel` write precedes the width
computation, so the trace at the point of failure is exactly the data
write, not empty. -/
theorem C5_amended_write_precedes_width_error (df : IndexedFrame)
    (ch : Bool) (columns : ColumnsArg) (hd : HeaderArg) (ix : Bool)
    (il : IndexLabelArg) (sr sc : Nat) (data : IndexedFrame)
    (labels : List String) (e : PyError)
    (hsel : selectData df columns = .ok data)
    (hlab : buildLabels data columns ix il = .ok labels)
    (hw : maximum_character_widths
        (if ix then data.reset_index else data.frame) ch (.list labels)
      = .error e) :
    to_autosize_excel df ch columns hd ix il sr sc
      = ([.writeData], .error e) := by
  unfold to_autosize_excel
  rw [hsel]
  simp only [hlab, hw]

/-- Witness for the amended C5 at a concrete failing call. -/
theorem C5_amended_witness :
    to_autosize_excel ⟨[(Option.none, ["i"])], ⟨[("A", ["x"])]⟩⟩ false
        (.list []) (.bool false) true (.str "idx") 0 0
      = ([.writeData], .error (.valueError
          "The number of labels must equal the number of columns in the dataframe")) :=
  C5_amended_write_precedes_width_error
    ⟨[(Option.none, ["i"])], ⟨[("A", ["x"])]⟩⟩ false (.list []) (.bool false)
    true (.str "idx") 0 0 ⟨[(Option.none, ["i"])], ⟨[("A", ["x"])]⟩⟩
    ["idx"] (.valueError
      "The number of labels must equal the number of columns in the dataframe")
    rfl rfl rfl

/-- C6 (code bug): with `columns` left at its default `None`, every call
to `to_autosize_excel` fails with a `TypeError` from `list(None)` — for
any `header` argument, including the default `True` — because line 76
tests `isinstance(columns, bool)` instead of the `header` argument, so
the "use the DataFrame's existing labels" branch is unreachable and the
else-branch iterates `columns = None`.  The dataframe's own column names
are never used as sizing labels. -/
theorem C6_default_labels_never_used (df : IndexedFrame) (ch : Bool)
    (hd : HeaderArg) (ix : Bool) (il : IndexLabelArg) (sr sc : Nat) :
    to_autosize_excel df ch .noCols hd ix il sr sc
      = ([.writeData],
         .error (.typeError "NoneType object is not iterable")) := by
  have hsel : selectData df .noCols = .ok df := rfl
  have hlab : buildLabels df .noCols ix il
      = .error (.typeError "NoneType object is not iterable") := by
    cases il <;> cases ix <;>
      simp only [buildLabels, IndexLabelArg.truthy, ColumnsArg.toPyList,
        Bool.and_self, Bool.false_and, Bool.true_and, Bool.and_false] <;>
      first
        | rfl
        | (split <;> rfl)
  unfold to_autosize_excel
  rw [hsel]
  simp only [hlab]

/-- C7: the converter computes `charwidth * round(0.118775 * fontsize, 2)`
(in exact arithmetic); at `charwidth = 10`, `fontsize = 11` the rounded
factor is `1.31` and the result is `13.1`. -/
theorem C7_converter_value :
    round2 (118775 / 1000000 * 11) = 131 / 100 ∧
    excel_column_width 10 11 = 131 / 10 := by
  have hf : ⌊(100 * (118775 / 1000000 * 11) : ℚ)⌋ = 130 := by
    rw [Int.floor_eq_iff]
    norm_num
  have h2 : round2 (118775 / 1000000 * 11) = 131 / 100 := by
    unfold round2 roundHalfEven
    rw [hf]
    norm_num
  refine ⟨h2, ?_⟩
  rw [excel_column_width, h2]
  norm_num

/-- C8: the converter is monotone non-decreasing in `charwidth` for every
fixed positive `fontsize`, monotone non-decreasing in `fontsize` over
positive font sizes for every fixed non-negative `charwidth`, and returns
`0` whenever `charwidth = 0`. -/
theorem C8_converter_monotone_and_zero :
    (∀ c₁ c₂ f : ℚ, 0 < f → 0 ≤ c₁ → c₁ ≤ c₂ →
      excel_column_width c₁ f ≤ excel_column_width c₂ f) ∧
    (∀ c f₁ f₂ : ℚ, 0 ≤ c → 0 < f₁ → f₁ ≤ f₂ →
      excel_column_width c f₁ ≤ excel_column_width c f₂) ∧
    (∀ f : ℚ, excel_column_width 0 f = 0) := by
  refine ⟨?_, ?_, ?_⟩
  · intro c₁ c₂ f hf _ h12
    have hr : 0 ≤ round2 (118775 / 1000000 * f) :=
      round2_nonneg (by positivity)
    exact mul_le_mul_of_nonneg_right h12 hr
  · intro c f₁ f₂ hc hf1 h12
    have hm : round2 (118775 / 1000000 * f₁)
        ≤ round2 (118775 / 1000000 * f₂) :=
      round2_mono (by nlinarith)
    exact mul_le_mul_of_nonneg_left hm hc
  · intro f
    simp [excel_column_width]

/-- Witness for C8 at concrete widths and font sizes. -/
theorem C8_witness :
    excel_column_width 3 11 ≤ excel_column_width 10 11 ∧
    excel_column_width 10 11 ≤ excel_column_width 10 12 ∧
    excel_column_width 0 5 = 0 :=
  ⟨C8_converter_monotone_and_zero.1 3 10 11 (by norm_num) (by norm_num)
      (by norm_num),
   C8_converter_monotone_and_zero.2.1 10 11 12 (by norm_num) (by norm_num)
      (by norm_num),
   C8_converter_monotone_and_zero.2.2 5⟩

/-- C9 counterexample: a successful call (mapping labels in reversed key
order, one column empty, headers not considered) whose result is neither
in the dataset's column order nor made of integers only: the entries come
out as `B` before `A`, and column `A` gets the `nan` sentinel
(`Option.none`), not a non-negative integer. -/
theorem C9_counterexample :
    maximum_character_widths ⟨[("A", []), ("B", ["yy"])]⟩ false
        (.dict [("B", "bb"), ("A", "aa")])
      = .ok [("B", some 2), ("A", Option.none)] ∧
    [("B", some 2), ("A", (Option.none : Option Nat))].map Prod.fst
      ≠ (⟨[("A", []), ("B", ["yy"])]⟩ : DataFrame).cols.map Prod.fst ∧
    ("A", (Option.none : Option Nat))
      ∈ [("B", some 2), ("A", (Option.none : Option Nat))] :=
  ⟨rfl, by decide, by decide⟩

/-- C9 amended: on success (aligned labels, or absent labels with headers
considered) the width map has exactly one entry per column — in the
dataset's column order for absent or sequence labels, in the mapping's
own key order for mapping labels — and an entry's value is the `nan`
sentinel (`none`) exactly when headers are not considered and its column
is empty; otherwise it is a non-negative integer. -/
theorem C9_amended_map_shape (df : DataFrame) (ch : Bool) (ah : AltHeaders)
    (hnd : (df.cols.map Prod.fst).Nodup)
    (hal : alignedLabels df ah ∨ (ah = .noLabels ∧ ch = true)) :
    ∃ w, maximum_character_widths df ch ah = .ok w ∧
      (w.map Prod.fst).Perm (df.cols.map Prod.fst) ∧
      (∀ l, ah = .list l → w.map Prod.fst = df.cols.map Prod.fst) ∧
      (ah = .noLabels → w.map Prod.fst = df.cols.map Prod.fst) ∧
      (∀ d, ah = .dict d → w.map Prod.fst = d.map Prod.fst) ∧
      (∀ p ∈ w, ∀ c ∈ df.cols, c.1 = p.1 →
        (p.2 = Option.none ↔ (ch = false ∧ c.2 = []))) := by
  rcases hal with hal | ⟨rfl, rfl⟩
  · obtain ⟨hs, _, hperm, hlist, hdict, hmcw⟩ := mcw_aligned df ch ah hnd hal
    have hw : (hs.map (fun p => (p.1, widthVal df ch p.1 p.2))).map Prod.fst
        = hs.map Prod.fst := by
      simp [List.map_map]
    refine ⟨_, hmcw, ?_, ?_, ?_, ?_, ?_⟩
    · rw [hw]; exact hperm
    · intro l hl
      rw [hw]
      exact hlist l hl
    · intro h
      subst h
      cases hal
    · intro d hd
      rw [hw, hdict d hd]
    · intro p hp c hc hcp
      obtain ⟨q, hq, rfl⟩ := List.mem_map.mp hp
      have h := widthVal_none_iff df hnd hc ch q.2
      rw [hcp] at h
      exact h
  · have hmcw := mcw_noLabels df hnd
    have hw : ((df.cols.map (fun c => (c.1, widthVal df true c.1 c.1))).map
        Prod.fst) = df.cols.map Prod.fst := by
      simp [List.map_map]
    refine ⟨_, hmcw, ?_, ?_, ?_, ?_, ?_⟩
    · rw [hw]
    · intro l hl
      cases hl
    · intro _
      exact hw
    · intro d hd
      cases hd
    · intro p hp c hc hcp
      obtain ⟨q, hq, rfl⟩ := List.mem_map.mp hp
      have h := widthVal_none_iff df hnd hc true q.1
      rw [hcp] at h
      exact h

/-- Witness for the amended C9: absent labels, headers considered. -/
theorem C9_amended_witness :
    ∃ w, maximum_character_widths ⟨[("A", ["x"]), ("B", ["yy"])]⟩ true
        .noLabels = .ok w ∧
      (w.map Prod.fst).Perm
        ((⟨[("A", ["x"]), ("B", ["yy"])]⟩ : DataFrame).cols.map Prod.fst) ∧
      (∀ l, AltHeaders.noLabels = AltHeaders.list l →
        w.map Prod.fst
          = (⟨[("A", ["x"]), ("B", ["yy"])]⟩ : DataFrame).cols.map Prod.fst) ∧
      (AltHeaders.noLabels = AltHeaders.noLabels →
        w.map Prod.fst
          = (⟨[("A", ["x"]), ("B", ["yy"])]⟩ : DataFrame).cols.map Prod.fst) ∧
      (∀ d, AltHeaders.noLabels = AltHeaders.dict d →
        w.map Prod.fst = d.map Prod.fst) ∧
      (∀ p ∈ w, ∀ c ∈ (⟨[("A", ["x"]), ("B", ["yy"])]⟩ : DataFrame).cols,
        c.1 = p.1 → (p.2 = Option.none ↔ (true = false ∧ c.2 = []))) :=
  C9_amended_map_shape ⟨[("A", ["x"]), ("B", ["yy"])]⟩ true .noLabels
    (by decide) (Or.inr ⟨rfl, rfl⟩)

/-- C10: a mapping with the right number of entries but a key that is not
a column name makes `maximum_character_widths` fail with an unhandled
`KeyError` — not `ValueError`/`TypeError` — whatever `consider_headers`:
the count check does not verify that the keys exist. -/
theorem C10_wrong_keyed_mapping_keyerror :
    ([("X", "lbl")] : List (String × String)).length
        = (⟨[("A", ["x"])]⟩ : DataFrame).cols.length ∧
    "X" ∉ (⟨[("A", ["x"])]⟩ : DataFrame).cols.map Prod.fst ∧
    maximum_character_widths ⟨[("A", ["x"])]⟩ true (.dict [("X", "lbl")])
      = .error (.keyError "X") ∧
    maximum_character_widths ⟨[("A", ["x"])]⟩ false (.dict [("X", "lbl")])
      = .error (.keyError "X") :=
  ⟨rfl, by decide, rfl, rfl⟩
